import Mathlib

/-!
# Shallow embedding of `reparojson` (src/src/lib.rs)

`reparojson` is a single-pass streaming JSON validator/repairer.  This file
embeds its core (`repair` and the `Parser::walk_*` procedures of
`src/src/lib.rs`) as executable Lean functions and proves the frozen claims
about it.

Modelling conventions:
* a byte is a `Nat` (the value of the `u8`);
* the input iterator `Peekable<impl Iterator<Item = io::Result<u8>>>` is a
  `List (Except Nat Nat)`: `Except.ok b` is a successfully read byte,
  `Except.error e` a read failure carrying an error code.  `peek` looks at the
  head without consuming, `next` consumes the head;
* the output sink (`impl Write`, a `Vec<u8>` in the library's tests) is a
  `List Nat` of written bytes, appended on the right; sink writes are modelled
  as infallible (as for `Vec<u8>`);
* a reachable `unwrap`/`unwrap_err` panic in the Rust source is modelled by
  the explicit result `Step.panicked`;
* the mutually recursive `walk_*` procedures are one function `walk` over a
  production tag, structurally recursive on a fuel counter so that the kernel
  can evaluate it; `Step.outOfFuel` records fuel exhaustion.  `repair` passes
  fuel `4 * length + 16`, ample for the nesting depth any input of that
  length can produce.
-/

namespace ReparoJson

/-- A byte value (the `u8` of the source). -/
abbrev Byte := Nat

/-- The input stream: each item is either a byte or a read failure
(`std::io::Result<u8>` yielded by `r.bytes()`). -/
abbrev Input := List (Except Nat Byte)

/-- `SyntaxError` of src/src/lib.rs lines 22-25.  It has exactly the two
variants of the source; in particular there is no `TrailingData` variant. -/
inductive SyntaxError where
  | unexpectedEof
  | invalidValue
deriving DecidableEq, Repr

/-- `RepairErr` of src/src/lib.rs lines 11-14: a syntax error or a propagated
I/O error (represented by its error code). -/
inductive RepairErr where
  | invalid (e : SyntaxError)
  | ioErr (e : Byte)
deriving DecidableEq, Repr

deriving instance DecidableEq for Except

/-- The mutable state threaded through the walkers: the unread input, the
bytes written to the sink so far, and the `Parser.repaired` flag. -/
structure St where
  input : Input
  out : List Byte
  rep : Bool
deriving DecidableEq, Repr

/-- Result of one walker call: success with the new state, a fatal
`RepairErr`, a reachable Rust panic, or fuel exhaustion of the embedding. -/
inductive Step (α : Type) where
  | ok (a : α)
  | fatal (e : RepairErr)
  | panicked
  | outOfFuel
deriving DecidableEq, Repr

/-- Sequencing of walker calls (the `?` operator of the source). -/
def Step.bind {α β : Type} : Step α → (α → Step β) → Step β
  | .ok a, f => f a
  | .fatal e, _ => .fatal e
  | .panicked, _ => .panicked
  | .outOfFuel, _ => .outOfFuel

/-- The four JSON whitespace bytes accepted by `walk_ws` (lines 625-626). -/
def isWsByte (c : Byte) : Bool := c = 9 || c = 10 || c = 13 || c = 32

/-- ASCII digit `b'0'..=b'9'`. -/
def isDigitByte (c : Byte) : Bool := 48 ≤ c && c ≤ 57

/-- `u8::is_ascii_hexdigit`: `0-9`, `A-F`, `a-f`. -/
def isHexByte (c : Byte) : Bool :=
  isDigitByte c || (65 ≤ c && c ≤ 70) || (97 ≤ c && c ≤ 102)

/-- The recurring source pattern
`let Some(x) = input.next() else { return UnexpectedEof }; let x = x?;`:
consume one item, `UnexpectedEof` at end of input, propagate a read error. -/
def nextByte : Input → Step (Byte × Input)
  | [] => .fatal (.invalid .unexpectedEof)
  | .error e :: _ => .fatal (.ioErr e)
  | .ok c :: rest => .ok (c, rest)

/-- `nextByte` followed by a comparison against an expected byte, with
`InvalidValue` on mismatch (the literal-spelling checks of `walk_value`,
lines 92-161). -/
def expectByte (i : Input) (b : Byte) : Step Input :=
  (nextByte i).bind fun p => if p.1 = b then .ok p.2 else .fatal (.invalid .invalidValue)

/-- `walk_ws` (lines 618-635): consume a maximal run of whitespace bytes,
appending each to the given writer (the sink or the pending buffer);
a read error seen by `peek` is consumed by `next` and propagated. -/
def walkWs : Input → List Byte → Step (Input × List Byte)
  | [], w => .ok ([], w)
  | .ok c :: rest, w =>
    if isWsByte c then walkWs rest (w ++ [c]) else .ok (.ok c :: rest, w)
  | .error e :: _, _ => .fatal (.ioErr e)

/-- `walk_sign` (lines 600-616): peek; end of input is `UnexpectedEof`,
a `+`/`-` is consumed and written, anything else is left in place. -/
def walkSign : Input → List Byte → Step (Input × List Byte)
  | [], _ => .fatal (.invalid .unexpectedEof)
  | .error e :: _, _ => .fatal (.ioErr e)
  | .ok c :: rest, w =>
    if c = 43 || c = 45 then .ok (rest, w ++ [c]) else .ok (.ok c :: rest, w)

/-- The digit-consuming loop of `walk_digits` (lines 536-550), tracking the
`has_digit` flag. -/
def walkDigitsLoop : Input → List Byte → Bool → Step (Input × List Byte × Bool)
  | [], w, h => .ok ([], w, h)
  | .ok c :: rest, w, h =>
    if isDigitByte c then walkDigitsLoop rest (w ++ [c]) true
    else .ok (.ok c :: rest, w, h)
  | .error e :: _, _, _ => .fatal (.ioErr e)

/-- `walk_digits` (lines 530-559): a maximal digit run; zero digits is
`InvalidValue` if a byte remains, `UnexpectedEof` at end of input. -/
def walkDigits (i : Input) (w : List Byte) : Step (Input × List Byte) :=
  (walkDigitsLoop i w false).bind fun r =>
    match r with
    | (i', w', true) => .ok (i', w')
    | ([], _, false) => .fatal (.invalid .unexpectedEof)
    | (_ :: _, _, false) => .fatal (.invalid .invalidValue)

/-- The digit loop of `walk_integer`'s nonzero branch (lines 510-523). -/
def walkIntegerLoop : Input → List Byte → Step (Input × List Byte)
  | [], w => .ok ([], w)
  | .ok c :: rest, w =>
    if isDigitByte c then walkIntegerLoop rest (w ++ [c])
    else .ok (.ok c :: rest, w)
  | .error e :: _, _ => .fatal (.ioErr e)

/-- `walk_integer` (lines 490-528): `-` recurses (line 502), a lone `0`
returns, a nonzero digit starts the digit loop. -/
def walkInteger : Input → List Byte → Step (Input × List Byte)
  | [], _ => .fatal (.invalid .unexpectedEof)
  | .error e :: _, _ => .fatal (.ioErr e)
  | .ok c :: rest, w =>
    if c = 45 then walkInteger rest (w ++ [45])
    else if c = 48 then .ok (rest, w ++ [48])
    else if isDigitByte c then walkIntegerLoop rest (w ++ [c])
    else .fatal (.invalid .invalidValue)

/-- `walk_fraction` (lines 561-578): optional `.` followed by digits. -/
def walkFraction (i : Input) (w : List Byte) : Step (Input × List Byte) :=
  match i with
  | [] => .ok ([], w)
  | .error e :: _ => .fatal (.ioErr e)
  | .ok c :: rest =>
    if c = 46 then walkDigits rest (w ++ [46]) else .ok (.ok c :: rest, w)

/-- `walk_exponent` (lines 580-598): optional `e`/`E`, sign, digits. -/
def walkExponent (i : Input) (w : List Byte) : Step (Input × List Byte) :=
  match i with
  | [] => .ok ([], w)
  | .error e :: _ => .fatal (.ioErr e)
  | .ok c :: rest =>
    if c = 101 || c = 69 then
      (walkSign rest (w ++ [c])).bind fun p => walkDigits p.1 p.2
    else .ok (.ok c :: rest, w)

/-- `walk_number` (lines 480-488): integer, fraction, exponent. -/
def walkNumber (i : Input) (w : List Byte) : Step (Input × List Byte) :=
  (walkInteger i w).bind fun p =>
  (walkFraction p.1 p.2).bind fun q =>
  walkExponent q.1 q.2

/-- One validated hex digit of a `\uXXXX` escape (lines 445-472). -/
def hexDigit (i : Input) : Step (Byte × Input) :=
  (nextByte i).bind fun p =>
    if isHexByte p.1 then .ok p else .fatal (.invalid .invalidValue)

/-- `walk_escape` (lines 431-478), entered after the `\` has been consumed.
A simple escape writes `\` plus the escape byte (line 442).  A `u` escape
validates four hex digits and then executes line 473,
`w.write_all(&[b'\\', u1, u2, u3, u4])`, which writes the backslash and the
four digits but not the byte `u` (117) itself. -/
def walkEscape (i : Input) (w : List Byte) : Step (Input × List Byte) :=
  (nextByte i).bind fun p =>
    let c := p.1
    if c = 34 || c = 92 || c = 47 || c = 98 || c = 102 || c = 110 || c = 114 || c = 116 then
      .ok (p.2, w ++ [92, c])
    else if c = 117 then
      (hexDigit p.2).bind fun q1 =>
      (hexDigit q1.2).bind fun q2 =>
      (hexDigit q2.2).bind fun q3 =>
      (hexDigit q3.2).bind fun q4 =>
      .ok (q4.2, w ++ [92, q1.1, q2.1, q3.1, q4.1])
    else .fatal (.invalid .invalidValue)

/-- Tags for the mutually recursive productions of the Grammar Walker; the
single function `walk` below dispatches on them. `strBody` is the byte loop
inside `walk_string` (lines 414-426). -/
inductive Production where
  | value | object | members | member | array | elements | element | str | strBody
deriving DecidableEq, Repr

/-- The Grammar Walker: one function for the mutually recursive
`Parser::walk_*` procedures of src/src/lib.rs, structurally recursive on
fuel.  Each branch is a line-by-line transcription of the corresponding Rust
procedure; the source line numbers are noted inline. -/
def walk : Nat → Production → St → Step St
  | 0, _, _ => .outOfFuel
  | fuel + 1, p, s =>
    match p with
    | .value =>
      -- walk_value, lines 77-173: dispatch on the peeked byte.
      match s.input with
      | [] => .fatal (.invalid .unexpectedEof)
      | .error e :: _ => .fatal (.ioErr e)
      | .ok c :: rest =>
        if c = 110 then
          -- null: verify `u` `l` `l`, then write the canonical literal.
          (expectByte rest 117).bind fun r1 =>
          (expectByte r1 108).bind fun r2 =>
          (expectByte r2 108).bind fun r3 =>
          .ok { s with input := r3, out := s.out ++ [110, 117, 108, 108] }
        else if c = 116 then
          (expectByte rest 114).bind fun r1 =>
          (expectByte r1 117).bind fun r2 =>
          (expectByte r2 101).bind fun r3 =>
          .ok { s with input := r3, out := s.out ++ [116, 114, 117, 101] }
        else if c = 102 then
          (expectByte rest 97).bind fun r1 =>
          (expectByte r1 108).bind fun r2 =>
          (expectByte r2 115).bind fun r3 =>
          (expectByte r3 101).bind fun r4 =>
          .ok { s with input := r4, out := s.out ++ [102, 97, 108, 115, 101] }
        else if c = 123 then walk fuel .object s
        else if c = 91 then walk fuel .array s
        else if c = 34 then walk fuel .str s
        else if c = 45 || isDigitByte c then
          (walkNumber s.input s.out).bind fun q =>
            .ok { s with input := q.1, out := q.2 }
        else .fatal (.invalid .invalidValue)
    | .object =>
      -- walk_object, lines 175-218.
      (walkWs s.input.tail (s.out ++ [123])).bind fun w1 =>
      match w1.1 with
      | [] => .fatal (.invalid .unexpectedEof)
      | .error e :: _ => .fatal (.ioErr e)
      | .ok first :: _ =>
        -- members_opt: enter the members loop only when the peeked byte is `"`.
        (if first = 34 then
          walk fuel .members { input := w1.1, out := w1.2, rep := s.rep }
        else .ok { input := w1.1, out := w1.2, rep := s.rep }).bind fun s2 =>
        -- trailing_comma_opt, lines 197-207.
        match s2.input with
        | [] => .fatal (.invalid .unexpectedEof)
        | .error e :: _ => .fatal (.ioErr e)
        | .ok mc :: rest2 =>
          (if mc = 44 then
            (walkWs rest2 s2.out).bind fun w3 =>
              .ok { input := w3.1, out := w3.2, rep := true }
          else .ok s2).bind fun s3 =>
          -- closing brace, lines 209-217.
          (nextByte s3.input).bind fun q =>
            if q.1 = 125 then
              .ok { s3 with input := q.2, out := s3.out ++ [125] }
            else .fatal (.invalid .invalidValue)
    | .members =>
      -- walk_members, lines 220-275: one loop iteration; a fresh pending
      -- whitespace buffer is created per iteration (line 228).
      (walk fuel .member s).bind fun s1 =>
      (walkWs s1.input []).bind fun w2 =>
      let i2 := w2.1
      let ws1 := w2.2
      match i2 with
      | [] => .fatal (.invalid .unexpectedEof)
      | .error e :: _ => .fatal (.ioErr e)
      | .ok nxt :: rest2 =>
        if nxt = 125 then
          -- line 239: flush the pending whitespace and stop.
          .ok { s1 with input := i2, out := s1.out ++ ws1 }
        else if nxt = 44 then
          -- line 243: flush, consume the comma, then walk_ws into the SAME
          -- buffer (line 248 passes `&mut ws` without clearing it), so the
          -- buffer now holds ws1 ++ ws2.
          (walkWs rest2 ws1).bind fun w3 =>
          match w3.1 with
          | [] => .fatal (.invalid .unexpectedEof)
          | .error e :: _ => .fatal (.ioErr e)
          | .ok c2 :: _ =>
            if c2 = 125 then
              -- trailing comma: drop it, flush the buffer (lines 257-261).
              .ok { input := w3.1, out := s1.out ++ ws1 ++ w3.2, rep := true }
            else
              -- normal continuation: write the comma and the buffer
              -- (lines 262-265), then loop.
              walk fuel .members
                { input := w3.1, out := s1.out ++ ws1 ++ [44] ++ w3.2, rep := s1.rep }
        else
          -- missing comma (lines 268-272): synthesize one, flush, loop.
          walk fuel .members { input := i2, out := s1.out ++ [44] ++ ws1, rep := true }
    | .member =>
      -- walk_member, lines 277-293: key string, ws, `:`, element.
      (walk fuel .str s).bind fun s1 =>
      (walkWs s1.input s1.out).bind fun w2 =>
      (nextByte w2.1).bind fun q =>
        if q.1 = 58 then
          walk fuel .element { input := q.2, out := w2.2 ++ [58], rep := s1.rep }
        else .fatal (.invalid .invalidValue)
    | .array =>
      -- walk_array, lines 295-338.
      (walkWs s.input.tail (s.out ++ [91])).bind fun w1 =>
      match w1.1 with
      | [] => .fatal (.invalid .unexpectedEof)
      | .error e :: _ => .fatal (.ioErr e)
      | .ok first :: _ =>
        -- elements_opt (line 312): enter the loop unless `,` or `]` peeked.
        (if first ≠ 44 ∧ first ≠ 93 then
          walk fuel .elements { input := w1.1, out := w1.2, rep := s.rep }
        else .ok { input := w1.1, out := w1.2, rep := s.rep }).bind fun s2 =>
        -- trailing_comma_opt, lines 317-327.
        match s2.input with
        | [] => .fatal (.invalid .unexpectedEof)
        | .error e :: _ => .fatal (.ioErr e)
        | .ok mc :: rest2 =>
          (if mc = 44 then
            (walkWs rest2 s2.out).bind fun w3 =>
              .ok { input := w3.1, out := w3.2, rep := true }
          else .ok s2).bind fun s3 =>
          -- closing bracket, lines 329-337.
          (nextByte s3.input).bind fun q =>
            if q.1 = 93 then
              .ok { s3 with input := q.2, out := s3.out ++ [93] }
            else .fatal (.invalid .invalidValue)
    | .elements =>
      -- walk_elements, lines 340-395: one loop iteration; fresh pending
      -- whitespace buffer per iteration (line 348).
      (walk fuel .value s).bind fun s1 =>
      (walkWs s1.input []).bind fun w2 =>
      let i2 := w2.1
      let ws1 := w2.2
      match i2 with
      | [] => .fatal (.invalid .unexpectedEof)
      | .error e :: _ => .fatal (.ioErr e)
      | .ok nxt :: rest2 =>
        if nxt = 93 then
          -- line 359: flush the pending whitespace and stop.
          .ok { s1 with input := i2, out := s1.out ++ ws1 }
        else if nxt = 44 then
          -- line 363: flush, consume the comma, then walk_ws into the SAME
          -- buffer (line 368 passes `&mut ws` without clearing it), so the
          -- buffer now holds ws1 ++ ws2.
          (walkWs rest2 ws1).bind fun w3 =>
          match w3.1 with
          | [] => .fatal (.invalid .unexpectedEof)
          | .error e :: _ => .fatal (.ioErr e)
          | .ok c2 :: _ =>
            if c2 = 93 then
              -- trailing comma: drop it, flush the buffer (lines 377-381).
              .ok { input := w3.1, out := s1.out ++ ws1 ++ w3.2, rep := true }
            else
              -- normal continuation (lines 382-385), then loop.
              walk fuel .elements
                { input := w3.1, out := s1.out ++ ws1 ++ [44] ++ w3.2, rep := s1.rep }
        else
          -- missing comma (lines 388-392): synthesize one, flush, loop.
          walk fuel .elements { input := i2, out := s1.out ++ [44] ++ ws1, rep := true }
    | .element =>
      -- walk_element, lines 397-405: ws, value, ws, all echoed to the sink.
      (walkWs s.input s.out).bind fun w1 =>
      (walk fuel .value { input := w1.1, out := w1.2, rep := s.rep }).bind fun s2 =>
      (walkWs s2.input s2.out).bind fun w3 =>
      .ok { input := w3.1, out := w3.2, rep := s2.rep }
    | .str =>
      -- walk_string, lines 407-413: write the opening quote, consume it.
      walk fuel .strBody { s with input := s.input.tail, out := s.out ++ [34] }
    | .strBody =>
      -- the byte loop of walk_string, lines 414-426.
      match s.input with
      | [] => .fatal (.invalid .unexpectedEof)
      | .ok c :: rest =>
        if c = 34 then .ok { s with input := rest, out := s.out ++ [34] }
        else if c = 92 then
          (walkEscape rest s.out).bind fun q =>
            walk fuel .strBody { s with input := q.1, out := q.2 }
        else walk fuel .strBody { s with input := rest, out := s.out ++ [c] }
      | .error _ :: rest =>
        -- line 423: `input.next()` already consumed the error; the arm then
        -- evaluates `input.next().unwrap().unwrap_err()` on the FOLLOWING
        -- item: `unwrap` of `None` or `unwrap_err` of an `Ok` byte panics,
        -- and a second error is returned in place of the first.
        match rest with
        | [] => .panicked
        | .ok _ :: _ => .panicked
        | .error e2 :: _ => .fatal (.ioErr e2)

/-- `Parser::walk_value`. -/
def walkValue (fuel : Nat) (s : St) : Step St := walk fuel .value s

/-- `Parser::walk_object`. -/
def walkObject (fuel : Nat) (s : St) : Step St := walk fuel .object s

/-- `Parser::walk_members`. -/
def walkMembers (fuel : Nat) (s : St) : Step St := walk fuel .members s

/-- `Parser::walk_member`. -/
def walkMember (fuel : Nat) (s : St) : Step St := walk fuel .member s

/-- `Parser::walk_array`. -/
def walkArray (fuel : Nat) (s : St) : Step St := walk fuel .array s

/-- `Parser::walk_elements`. -/
def walkElements (fuel : Nat) (s : St) : Step St := walk fuel .elements s

/-- `Parser::walk_element`. -/
def walkElement (fuel : Nat) (s : St) : Step St := walk fuel .element s

/-- `Parser::walk_string`. -/
def walkString (fuel : Nat) (s : St) : Step St := walk fuel .str s

/-- `Parser::walk_json` (lines 69-75): exactly `walk_element`; the source
performs no end-of-input check afterwards. -/
def walkJson (fuel : Nat) (s : St) : Step St := walkElement fuel s

/-- `RepairOk` of the source plus the failure cases, flattened into the one
observable outcome of a `repair` call: `valid`/`repaired` carry the bytes
written to the sink. -/
inductive RepairOutcome where
  | valid (out : List Byte)
  | repaired (out : List Byte)
  | invalid (e : SyntaxError)
  | ioError (e : Byte)
  | panicked
  | outOfFuel
deriving DecidableEq, Repr

/-- Fuel budget: every unit of nesting of the input costs a bounded number of
recursive `walk` calls, so `4 * length + 16` dominates any input. -/
def repairFuel (i : Input) : Nat := 4 * i.length + 16

/-- `repair` (lines 42-52): run `walk_json` from the initial state
(`repaired = false`, empty sink) and classify the result by the `repaired`
flag. -/
def repair (i : Input) : RepairOutcome :=
  match walkJson (repairFuel i) { input := i, out := [], rep := false } with
  | .ok s => if s.rep then .repaired s.out else .valid s.out
  | .fatal (.invalid e) => .invalid e
  | .fatal (.ioErr e) => .ioError e
  | .panicked => .panicked
  | .outOfFuel => .outOfFuel

/-- Wrap a list of plain bytes as an error-free input stream. -/
def okBytes (bs : List Byte) : Input := bs.map Except.ok

end ReparoJson

namespace ReparoJson

/-! ## Claim theorems

Byte sequences below are spelled as ASCII codes; the decoded text is noted
in the accompanying doc comment. -/

/-- C1: the claim — for every syntactically valid JSON input with no
comma-placement defects, `repair` yields `Valid` with output byte-identical
to the input — fails on the code.  The input `"[1 ,2]"`
(`[91, 49, 32, 44, 50, 93]`) is valid JSON with a correctly placed comma,
yet `repair` returns `Valid` with output `"[1 , 2]"`: the pending-whitespace
buffer is flushed before the comma and then, never having been cleared,
flushed again after it (src/src/lib.rs lines 364-385), inserting an extra
space. -/
theorem repair_not_identity_on_valid_input :
    repair (okBytes [91, 49, 32, 44, 50, 93]) =
      RepairOutcome.valid [91, 49, 32, 44, 32, 50, 93] ∧
    [91, 49, 32, 44, 32, 50, 93] ≠ [91, 49, 32, 44, 50, 93] := by decide

/-- C2: the claim — an input whose prefix parses as one complete top-level
element but which has further bytes is rejected with `TrailingData` — fails
on the code.  `walk_json` (src/src/lib.rs lines 69-75) is exactly
`walk_element` with no end-of-input check, and the `SyntaxError` type
(lines 22-25) has no `TrailingData` variant at all: on `"1 2"`
(`[49, 32, 50]`) the code returns `Valid` with output `"1 "`, silently
ignoring the trailing `2`. -/
theorem repair_accepts_trailing_data :
    repair (okBytes [49, 32, 50]) = RepairOutcome.valid [49, 32] ∧
    ∀ e : SyntaxError,
      e = SyntaxError.unexpectedEof ∨ e = SyntaxError.invalidValue := by
  refine ⟨by decide, fun e => ?_⟩
  cases e
  case unexpectedEof => exact Or.inl rfl
  case invalidValue => exact Or.inr rfl

/-- C3: the claim — each buffered whitespace byte reaches the output exactly
once and the buffer is cleared before being refilled after a consumed
comma — fails on the code.  On `"[2 ,3]"` (`[91, 50, 32, 44, 51, 93]`) the
single buffered space (byte 32) before the comma is written twice: once by
the flush at src/src/lib.rs line 364 and once more when the never-cleared
buffer is flushed again at line 384, so the output `"[2 , 3]"` contains two
spaces where the input had one. -/
theorem pending_ws_written_twice :
    repair (okBytes [91, 50, 32, 44, 51, 93]) =
      RepairOutcome.valid [91, 50, 32, 44, 32, 51, 93] ∧
    List.count 32 [91, 50, 32, 44, 32, 51, 93] = 2 ∧
    List.count 32 [91, 50, 32, 44, 51, 93] = 1 := by decide

/-- C4: the claim — all six source characters of a validated `\uXXXX`
escape (backslash, `u`, four hex digits) are written to the output — fails
on the code.  Line 473 of src/src/lib.rs executes
`w.write_all(&[b'\\', u1, u2, u3, u4])`, omitting `b'u'`: on the valid
input `"A"` (`[34, 92, 117, 48, 48, 52, 49, 34]`) the output is
`"\0041"` — the byte `u` (117) appears nowhere in it — and the outcome is
still `Valid`. -/
theorem escape_u_dropped :
    repair (okBytes [34, 92, 117, 48, 48, 52, 49, 34]) =
      RepairOutcome.valid [34, 92, 48, 48, 52, 49, 34] ∧
    (117 : Byte) ∉ [34, 92, 48, 48, 52, 49, 34] := by decide

/-- C5: the claim — on input `"[   1 ,  ]"` the output is exactly
`"[   1   ]"` with outcome `Repaired` — fails on the code.  The outcome is
`Repaired` and the comma is dropped, but the buffered space before the
comma is written twice (flush at src/src/lib.rs line 364, re-flush of the
never-cleared buffer at line 379), so the output is `"[   1    ]"` (four
spaces after the `1`), not the claimed `"[   1   ]"` (three). -/
theorem trailing_comma_example_output :
    repair (okBytes [91, 32, 32, 32, 49, 32, 44, 32, 32, 93]) =
      RepairOutcome.repaired [91, 32, 32, 32, 49, 32, 32, 32, 32, 93] ∧
    [91, 32, 32, 32, 49, 32, 32, 32, 32, 93] ≠
      [91, 32, 32, 32, 49, 32, 32, 32, 93] := by decide

/-- C6: on the concrete input `"[1   2  ]"`
(`[91, 49, 32, 32, 32, 50, 32, 32, 93]`) `repair` succeeds with outcome
`Repaired` and output exactly `"[1,   2  ]"`: a comma is synthesized between
the two elements and every whitespace byte is preserved. -/
theorem missing_comma_example :
    repair (okBytes [91, 49, 32, 32, 32, 50, 32, 32, 93]) =
      RepairOutcome.repaired [91, 49, 44, 32, 32, 32, 50, 32, 32, 93] := by decide

/-- C7: the claim — for every output `O` of a successful `repair` call,
re-running `repair` on `O` yields `Valid` with output `O` — fails on the
code.  `repair "[1 ,2]"` succeeds with output `O = "[1 , 2]"`, but
`repair O` yields output `"[1 ,  2]" ≠ O`: each pass duplicates the
whitespace run preceding the comma (the never-cleared pending buffer of
src/src/lib.rs lines 364-385), so repair is not idempotent. -/
theorem repair_not_idempotent :
    repair (okBytes [91, 49, 32, 44, 50, 93]) =
      RepairOutcome.valid [91, 49, 32, 44, 32, 50, 93] ∧
    repair (okBytes [91, 49, 32, 44, 32, 50, 93]) =
      RepairOutcome.valid [91, 49, 32, 44, 32, 32, 50, 93] ∧
    [91, 49, 32, 44, 32, 32, 50, 93] ≠ [91, 49, 32, 44, 32, 50, 93] := by decide

/-- C8: the claim — a read failure at a reached position, including inside a
string body, is returned as an `IoError` propagated unchanged and never
causes a panic — fails on the code.  In `walk_string`'s loop the
`Some(Err(_))` arm (src/src/lib.rs line 423) has already consumed the error
via `input.next()` and then evaluates `input.next().unwrap().unwrap_err()`
on the FOLLOWING item, so on the input consisting of the byte `"` followed
by a read failure (error code 7) at the end of the stream, `unwrap` is
applied to `None` and the program panics instead of returning the I/O
error. -/
theorem read_error_in_string_panics :
    repair [Except.ok 34, Except.error 7] = RepairOutcome.panicked := by decide

/-- C9: `repair` is deterministic — for a fixed input stream, any two runs
produce the same outcome and output; the result depends on nothing but the
input items.  In this embedding `repair` is a pure function of the input,
so two results of the same call are equal. -/
theorem repair_deterministic (i : Input) (o₁ o₂ : RepairOutcome)
    (h₁ : repair i = o₁) (h₂ : repair i = o₂) : o₁ = o₂ := by
  rw [← h₁, ← h₂]

/-- Witness for C9: instantiating `repair_deterministic` at the concrete
input `"null"` with both runs evaluated. -/
theorem repair_deterministic_witness :
    repair (okBytes [110, 117, 108, 108]) =
      RepairOutcome.valid [110, 117, 108, 108] ∧
    RepairOutcome.valid [110, 117, 108, 108] =
      RepairOutcome.valid [110, 117, 108, 108] :=
  ⟨by decide,
   repair_deterministic (okBytes [110, 117, 108, 108])
     (RepairOutcome.valid [110, 117, 108, 108])
     (RepairOutcome.valid [110, 117, 108, 108]) (by decide) (by decide)⟩

/-- C10: an object whose interior is a single comma and no members, the
input `"{,}"` (`[123, 44, 125]`), is accepted: the members loop is entered
only when the first interior non-whitespace byte is `"` (src/src/lib.rs
line 192), so the stray comma is consumed by the trailing-comma branch and
`repair` returns `Repaired` with output `"{}"`. -/
theorem lone_comma_object_repaired :
    repair (okBytes [123, 44, 125]) = RepairOutcome.repaired [123, 125] := by decide

end ReparoJson
